import Mathlib

/-!
Verification development for the error-detection / auto-repair loop of the
SiteCrafter front end.  The definitions below are a shallow embedding of the
relevant TypeScript source: the output normalizer and error classifier
(parseError), the stack-trace resolver (parseStackTrace), the fix dispatcher
(fixCodeError) and the two trigger handlers (the terminal-output watcher
effect and the runtime-error message handler).  JavaScript regular
expressions are embedded by a small backtracking matcher whose search order
matches the JS engine (leftmost match, greedy quantifiers, left-biased
alternation).
-/

namespace SiteCrafter

/-- JS whitespace class as used by the regexes and trim. -/
def jsSpace (c : Char) : Bool :=
  c = ' ' || c = '\t' || c = '\n' || c = '\r' ||
  c = Char.ofNat 11 || c = Char.ofNat 12 || c = Char.ofNat 160 || c = Char.ofNat 65279

/-- JS word-character class (backslash-w). -/
def jsWord (c : Char) : Bool :=
  ('a' ≤ c && c ≤ 'z') || ('A' ≤ c && c ≤ 'Z') || c.isDigit || c = '_'

/-- Substring test, the embedding of JS String.includes. -/
def containsSub : List Char → List Char → Bool
  | [], p => p.isPrefixOf []
  | c :: t', p => p.isPrefixOf (c :: t') || containsSub t' p

/-- String.includes on Lean strings. -/
def containsStr (s pat : String) : Bool := containsSub s.data pat.data

/-- JS slice(-n): the last n characters (whole string when shorter). -/
def sliceLast (s : String) (n : Nat) : String :=
  String.mk (s.data.drop (s.data.length - n))

/-- JS slice(0, n): the first n characters. -/
def sliceFirst (s : String) (n : Nat) : String :=
  String.mk (s.data.take n)

/-- JS Array.slice(-n) on a list. -/
def takeLast {α : Type} (n : Nat) (l : List α) : List α :=
  l.drop (l.length - n)

/-- Fuel-driven body of splitOnSub; a fuel of the input length plus one is
always enough, since every step consumes at least one character. -/
def splitOnSubF (sep : List Char) : Nat → List Char → List (List Char)
  | 0, s => [s]
  | fuel + 1, s =>
    match s with
    | [] => [[]]
    | c :: rest =>
      if sep ≠ [] && sep.isPrefixOf (c :: rest) then
        [] :: splitOnSubF sep fuel ((c :: rest).drop sep.length)
      else
        match splitOnSubF sep fuel rest with
        | [] => [[c]]
        | chunk :: more => (c :: chunk) :: more

/-- JS split(sep) for a non-empty separator, on character lists. -/
def splitOnSub (sep : List Char) (s : List Char) : List (List Char) :=
  splitOnSubF sep (s.length + 1) s

/-- JS split(sep).pop(): last chunk of the split. -/
def lastChunk (sep : String) (s : String) : String :=
  String.mk ((splitOnSub sep.data s.data).getLastD [])

/-- JS replace(pat, emptyString) for a plain (non-regex) first occurrence. -/
def removeFirstSub (pat : List Char) (s : List Char) : List Char :=
  match s with
  | [] => []
  | c :: rest =>
    if pat ≠ [] && pat.isPrefixOf (c :: rest) then (c :: rest).drop pat.length
    else c :: removeFirstSub pat rest

/-- String version of removeFirstSub. -/
def removeFirstStr (pat s : String) : String :=
  String.mk (removeFirstSub pat.data s.data)

/-- JS string endsWith. -/
def strEndsWith (s suffix : String) : Bool := suffix.data.isSuffixOf s.data

/-- JS string startsWith. -/
def strStartsWith (s pre : String) : Bool := pre.data.isPrefixOf s.data

/-- JS Array.join with a newline, as used on the rolling output log. -/
def joinLines (l : List String) : String :=
  String.mk (((l.map String.data).intersperse ['\n']).flatten)

/-- True when the string is all whitespace (JS trim() yields the empty,
falsy string exactly then). -/
def isBlank (s : String) : Bool := s.data.all jsSpace

/-- Abstract form of the JS regular expressions appearing in the source.
`star` and the one-character class `cls` take a character predicate; greedy
matching and left-biased alternation reproduce the JS engine's order. -/
inductive RE where
  | eps : RE
  | lit : List Char → RE
  | liti : List Char → RE
  | cls : (Char → Bool) → RE
  | star : (Char → Bool) → RE
  | seq : RE → RE → RE
  | alt : RE → RE → RE
  | opt : RE → RE
  | grp : Nat → RE → RE

/-- Case-insensitive character comparison, for regexes carrying the i flag. -/
def ciEq (a b : Char) : Bool := a.toLower = b.toLower

/-- Case-insensitive literal prefix test returning the rest of the input. -/
def ciDrop : List Char → List Char → Option (List Char)
  | [], s => some s
  | _ :: _, [] => none
  | p :: ps, c :: cs => if ciEq p c then ciDrop ps cs else none

/-- Capture environment: group index paired with the captured characters. -/
abbrev Caps := List (Nat × List Char)

/-- Backtracking matcher in continuation style.  The continuation receives
the captures so far and the unconsumed input.  Greedy quantifiers try the
longer consumption first, and alternation tries its left branch first,
mirroring the JS engine.  The fuel bounds the nesting depth of the
recursion; one unit is spent per nesting level, so the regex size plus the
input length plus a constant is always enough, and the search wrapper
supplies that much. -/
def mmatch {R : Type} : Nat → RE → List Char → Caps → (Caps → List Char → Option R) → Option R
  | 0, _, _, _, _ => none
  | fuel + 1, r, s, caps, k =>
    match r with
    | .eps => k caps s
    | .lit l =>
        if l.isPrefixOf s then k caps (s.drop l.length) else none
    | .liti l =>
        match ciDrop l s with
        | some rest => k caps rest
        | none => none
    | .cls p =>
        match s with
        | [] => none
        | c :: s' => if p c then k caps s' else none
    | .star p =>
        match s with
        | [] => k caps []
        | c :: s' =>
          if p c then (mmatch fuel (.star p) s' caps k) <|> k caps (c :: s')
          else k caps (c :: s')
    | .seq a b =>
        mmatch fuel a s caps (fun caps' s' => mmatch fuel b s' caps' k)
    | .alt a b =>
        (mmatch fuel a s caps k) <|> (mmatch fuel b s caps k)
    | .opt a =>
        (mmatch fuel a s caps k) <|> k caps s
    | .grp i a =>
        mmatch fuel a s caps
          (fun caps' s' => k ((i, s.take (s.length - s'.length)) :: caps') s')

/-- Structural bound on a regex, used to provision matcher fuel. -/
def reSize : RE → Nat
  | .eps => 1
  | .lit l => l.length + 1
  | .liti l => l.length + 1
  | .cls _ => 1
  | .star _ => 1
  | .seq a b => reSize a + reSize b + 1
  | .alt a b => reSize a + reSize b + 1
  | .opt a => reSize a + 1
  | .grp _ a => reSize a + 1

/-- Anchored match attempt at the head of the input, with ample fuel. -/
def tryHere (r : RE) (s : List Char) : Option Caps :=
  mmatch (reSize r + s.length + 1) r s [] (fun caps _ => some caps)

/-- Leftmost search, the embedding of JS String.match for a non-global
regex: try an anchored match at each position from the left. -/
def searchFrom (r : RE) : List Char → Option Caps
  | [] =>
    (match tryHere r [] with
     | some caps => some caps
     | none => none)
  | c :: s' =>
    (match tryHere r (c :: s') with
     | some caps => some caps
     | none => searchFrom r s')

/-- Captured group as a string; none when the group did not participate. -/
def capGet (caps : Caps) (i : Nat) : Option String :=
  (caps.lookup i).map String.mk

/-- Literal regex from a string. -/
def rlit (s : String) : RE := .lit s.data

/-- Case-insensitive literal regex from a string. -/
def rliti (s : String) : RE := .liti s.data

/-- Sequence of regexes. -/
def rseq (l : List RE) : RE := l.foldr .seq .eps

/-- Greedy plus of a character class. -/
def rplus (p : Char → Bool) : RE := .seq (.cls p) (.star p)

/-- First capture of the first match, defaulted to the empty string. -/
def reCap1 (r : RE) (text : String) : Option String :=
  (searchFrom r text.data).map (fun caps => (capGet caps 1).getD "")

/-- Captures 1 and 2 of the first match. -/
def reCap12 (r : RE) (text : String) : Option (String × String) :=
  (searchFrom r text.data).map
    (fun caps => ((capGet caps 1).getD "", (capGet caps 2).getD ""))

/-- The CSI parameter bytes accepted by the first stripping regex. -/
def csiParam (c : Char) : Bool := c.isDigit || c = ';'

/-- The final bytes accepted by the first stripping regex. -/
def csiFinal (c : Char) : Bool := c = 'm' || c = 'G' || c = 'K' || c = 'H' || c = 'F'

/-- The escape character. -/
def escChar : Char := Char.ofNat 27

/-- Fuel-driven body of stripCSI; every step consumes at least one
character, so a fuel of the input length plus one is always enough, and
fuel exhaustion (which never happens for the wrapper) returns the rest
unchanged. -/
def stripCSIF : Nat → List Char → List Char
  | 0, s => s
  | fuel + 1, s =>
    match s with
    | [] => []
    | c :: rest =>
      if c = escChar then
        match rest with
        | '[' :: rest2 =>
          match (rest2.drop (rest2.takeWhile csiParam).length).head? with
          | some f =>
            if csiFinal f then
              stripCSIF fuel ((rest2.drop (rest2.takeWhile csiParam).length).drop 1)
            else c :: '[' :: stripCSIF fuel rest2
          | none => c :: '[' :: stripCSIF fuel rest2
        | other => c :: stripCSIF fuel other
      else c :: stripCSIF fuel rest

/-- Global replace of the CSI pattern (escape, bracket, parameter bytes, a
final byte) by the empty string: first replace of the normalizer. -/
def stripCSI (s : List Char) : List Char := stripCSIF (s.length + 1) s

/-- Fuel-driven body of stripBracketNum. -/
def stripBracketNumF : Nat → List Char → List Char
  | 0, s => s
  | fuel + 1, s =>
    match s with
    | [] => []
    | c :: rest =>
      if c = '[' then
        if (rest.takeWhile Char.isDigit) ≠ [] &&
            (rest.drop (rest.takeWhile Char.isDigit).length).head? = some 'm' then
          stripBracketNumF fuel (rest.drop ((rest.takeWhile Char.isDigit).length + 1))
        else c :: stripBracketNumF fuel rest
      else c :: stripBracketNumF fuel rest

/-- Global replace of a bracket, digits, then the letter m by the empty
string: second replace of the normalizer. -/
def stripBracketNum (s : List Char) : List Char := stripBracketNumF (s.length + 1) s

/-- The Output Normalizer: the two chained regex replaces at the top of
parseError stripping terminal control sequences. -/
def normalizeOut (s : List Char) : List Char := stripBracketNum (stripCSI s)

/-- normalizeOut on Lean strings. -/
def normalizeStr (s : String) : String := String.mk (normalizeOut s.data)

/-- A quote character, double or single. -/
def isQuote (c : Char) : Bool := c = '"' || c = '\''

/-- Any character but a line terminator: the JS dot. -/
def jsDot (c : Char) : Bool :=
  c ≠ '\n' && c ≠ '\r' && c ≠ Char.ofNat 8232 && c ≠ Char.ofNat 8233

/-- Path characters of the TypeScript-diagnostic and syntax-error rules:
word characters, dash and slash. -/
def pathChar (c : Char) : Bool := jsWord c || c = '-' || c = '/'

/-- Optional project-root prefix: slash home slash, non-slashes, slash. -/
def homeOptRe : RE := .opt (rseq [rlit "/home/", rplus (fun c => c ≠ '/'), rlit "/"])

/-- A src-rooted ts or tsx path with no whitespace or colon. -/
def srcTightRe : RE :=
  rseq [rlit "src/", rplus (fun c => !jsSpace c && c ≠ ':'), rlit ".ts", .opt (rlit "x")]

/-- A src-rooted ts or tsx path with no whitespace, colon or close paren. -/
def srcInlineRe : RE :=
  rseq [rlit "src/",
    rplus (fun c => !jsSpace c && c ≠ ':' && c ≠ ')'), rlit ".ts", .opt (rlit "x")]

/-- A src-rooted ts or tsx path over word, dash and slash characters. -/
def srcPathCharsRe : RE :=
  rseq [rlit "src/", rplus pathChar, rlit ".ts", .opt (rlit "x")]

/-- Rule 1 of the classifier: the File-colon annotation of a vite plugin
error, with optional project-root prefix and optional line number. -/
def fileLineRe : RE :=
  rseq [rlit "File:", .star jsSpace, homeOptRe, .grp 1 srcTightRe,
    .opt (rseq [rlit ":", .grp 2 (rplus Char.isDigit)])]

/-- Rule 1 fallback: an inline src path anywhere in the text. -/
def inlineFileRe : RE := rseq [homeOptRe, .grp 1 srcInlineRe]

/-- Rule 2: the failed-to-resolve-import diagnostic. -/
def importRe : RE :=
  rseq [rlit "Failed to resolve import", .star jsSpace, .cls isQuote,
    .grp 1 (rplus (fun c => !isQuote c)), .cls isQuote, .star jsSpace,
    rlit "from", .star jsSpace, .cls isQuote,
    .grp 2 (rplus (fun c => !isQuote c)), .cls isQuote]

/-- Rule 3: a TypeScript compiler diagnostic with line and column. -/
def tsRe : RE :=
  rseq [.grp 1 srcPathCharsRe, rlit "(", .grp 2 (rplus Char.isDigit), rlit ",",
    .grp 3 (rplus Char.isDigit), rlit "):", .star jsSpace, rlit "error",
    .star jsSpace, .grp 4 (rseq [rlit "TS", rplus Char.isDigit]), rlit ":",
    .star jsSpace, .grp 5 (rplus jsDot)]

/-- Rules 4 and 5: a src path with optional project-root prefix. -/
def srcFileRe : RE := rseq [homeOptRe, .grp 1 srcPathCharsRe]

/-- Rule 5: the cannot-find-module diagnostic. -/
def moduleRe : RE :=
  rseq [rlit "Cannot find module", .star jsSpace, .cls isQuote,
    .grp 1 (rplus (fun c => !isQuote c)), .cls isQuote]

/-- The hot-reload success marker checked by the classifier short-circuit. -/
def checkMark : String := String.mk [Char.ofNat 9989]

/-- An error candidate: repo-relative source path and diagnostic text. -/
structure ErrorCandidate where
  file : String
  error : String
deriving DecidableEq, Repr

/-- The error body built by the vite-plugin rule. -/
def viteMsg (filePath text : String) : String :=
  "Vite Error in " ++ filePath ++ "\n\nFull error:\n" ++ sliceLast text 1000

/-- The file attributed by the import rule: the importing file, made
src-relative. -/
def importFilePath (sourceFileRaw : String) : String :=
  let sourceFile := if strStartsWith sourceFileRaw "/" then sourceFileRaw.drop 1 else sourceFileRaw
  if strStartsWith sourceFile "src/" then sourceFile
  else "src/" ++ lastChunk "src/" sourceFile

/-- The error body built by the import rule. -/
def importMsg (specifier filePath text : String) : String :=
  "Import Error: Cannot find \"" ++ specifier ++ "\" in " ++ filePath ++
    "\n\nFull error:\n" ++ sliceLast text 800

/-- The error body built by the TypeScript rule. -/
def tsMsg (code line msg text : String) : String :=
  "TypeScript " ++ code ++ " at line " ++ line ++ ": " ++ msg ++
    "\n\nFull error:\n" ++ sliceLast text 600

/-- The error body built by the syntax-error rule. -/
def synMsg (filePath text : String) : String :=
  "Syntax Error in " ++ filePath ++ "\n\n" ++ sliceLast text 600

/-- The error body built by the module-not-found rule. -/
def modMsg (moduleName text : String) : String :=
  "Module not found: " ++ moduleName ++ "\n\n" ++ sliceLast text 500

/-- Classifier rules 5 (cannot find module), reached when rules 1 to 4
fall through. -/
def parseErrorRest2 (text : String) : Option ErrorCandidate :=
  match reCap1 moduleRe text with
  | some m =>
    match reCap1 srcFileRe text with
    | some f => some ⟨f, modMsg m text⟩
    | none => none
  | none => none

/-- Classifier rules 2 to 5, reached when rule 1 falls through. -/
def parseErrorRest (text : String) : Option ErrorCandidate :=
  match reCap12 importRe text with
  | some (specifier, src) =>
    let fp := importFilePath src
    some ⟨fp, importMsg specifier fp text⟩
  | none =>
    match searchFrom tsRe text.data with
    | some caps =>
      some ⟨(capGet caps 1).getD "",
        tsMsg ((capGet caps 4).getD "") ((capGet caps 2).getD "")
          ((capGet caps 5).getD "") text⟩
    | none =>
      if containsStr text "SyntaxError" || containsStr text "Unexpected token" then
        match reCap1 srcFileRe text with
        | some f => some ⟨f, synMsg f text⟩
        | none => parseErrorRest2 text
      else parseErrorRest2 text

/-- Classifier body on the normalized text. -/
def parseErrorText (text : String) : Option ErrorCandidate :=
  if containsStr text "hmr update" && !containsStr text "[plugin:vite" then none
  else if containsStr text checkMark && !containsStr text "[plugin:vite" then none
  else if containsStr text "[plugin:vite:" then
    match reCap1 fileLineRe text with
    | some p => some ⟨p, viteMsg p text⟩
    | none =>
      match reCap1 inlineFileRe text with
      | some p => some ⟨p, viteMsg p text⟩
      | none => parseErrorRest text
  else parseErrorRest text

/-- The normalized text the classifier works on: the last 80 lines of the
rolling output log, joined and stripped of control sequences. -/
def normText (output : List String) : String :=
  normalizeStr (joinLines (takeLast 80 output))

/-- The Error Classifier parseError: strict error detection over terminal
output. -/
def parseError (output : List String) : Option ErrorCandidate :=
  parseErrorText (normText output)

/-- A JS number restricted to what parseInt can yield on the captured
strings: a natural number or NaN. -/
inductive JsNum where
  | nan : JsNum
  | num : Nat → JsNum
deriving DecidableEq, Repr

/-- Numeric value of a digit run. -/
def digitsVal (ds : List Char) : Nat :=
  ds.foldl (fun a c => a * 10 + (c.toNat - 48)) 0

/-- JS parseInt with radix 10: leading whitespace skipped, then a digit
run; NaN when no digit leads (signs never occur in the captured strings). -/
def parseIntJs (s : String) : JsNum :=
  let t := s.data.dropWhile jsSpace
  let ds := t.takeWhile Char.isDigit
  if ds = [] then .nan else .num (digitsVal ds)

/-- Resolver output: optional file path and optional line number. -/
structure StackInfo where
  filePath : Option String
  lineNumber : Option JsNum
deriving DecidableEq, Repr

/-- Resolver pattern 1, transcribed as written in the source: after the
sandbox-host marker and the path, the line-number group is spelled with a
double backslash inside a regex literal, so it matches one literal
backslash followed by letters d, never a digit run. -/
def stackP1Re : RE :=
  rseq [rlit ".io/src/",
    .grp 1 (rseq [rplus (fun c => !jsSpace c && c ≠ ':' && c ≠ ')'),
      rlit ".ts", .opt (rlit "x")]),
    rlit ":", .grp 2 (rseq [rlit "\\", rplus (fun c => c = 'd')])]

/-- Resolver pattern 2 head: the React check-the-render-method message. -/
def renderRe : RE :=
  rseq [rliti "Check the render method of ",
    .opt (.cls (fun c => c = Char.ofNat 96 || c = '\'')),
    .grp 1 (rplus jsWord),
    .opt (.cls (fun c => c = Char.ofNat 96 || c = '\''))]

/-- Resolver pattern 2 body, built per component name from a template
string, where the escapes denote real whitespace and digit classes. -/
def componentFileRe (name : String) : RE :=
  rseq [rlit ("at " ++ name), .star jsSpace, rlit "(",
    .star (fun c => c ≠ ')'), rlit "/src/",
    .grp 1 (rseq [rplus (fun c => !jsSpace c && c ≠ ':' && c ≠ ')'),
      rlit ".ts", .opt (rlit "x")]),
    rlit ":", .grp 2 (rplus Char.isDigit)]

/-- Resolver pattern 3: a named stack frame with a full URL. -/
def reactFrameRe : RE :=
  rseq [rlit "at", rplus jsSpace, rplus jsWord, rplus jsSpace, rlit "(",
    rlit "http", .opt (rlit "s"), rlit "://", rplus (fun c => c ≠ ')'),
    rlit "/", .grp 1 (rseq [rlit "src/", rplus (fun c => c ≠ ':' && c ≠ ')')]),
    rlit ":", .grp 2 (rplus Char.isDigit), rlit ":", rplus Char.isDigit,
    rlit ")"]

/-- Resolver pattern 4: an anonymous stack frame with a full URL. -/
def urlFrameRe : RE :=
  rseq [rlit "at", rplus jsSpace, rlit "http", .opt (rlit "s"), rlit "://",
    rplus (fun c => c ≠ '/'), rlit "/",
    .grp 1 (rseq [rlit "src/", rplus (fun c => c ≠ ':' && c ≠ ')')]),
    rlit ":", .grp 2 (rplus Char.isDigit), rlit ":", rplus Char.isDigit]

/-- Resolver pattern 5: any bare src path with a script extension. -/
def simplePathRe : RE :=
  .grp 1 (rseq [rlit "src/",
    rplus (fun c => jsWord c || c = '/' || c = '.' || c = '-'), rlit ".",
    .alt (rseq [rlit "ts", .opt (rlit "x")]) (rseq [rlit "js", .opt (rlit "x")])])

/-- The Stack Trace Resolver parseStackTrace: extract file path and line
number from a runtime stack trace and message. -/
def parseStackTrace (stack message : String) : StackInfo :=
  let combined := message ++ "\n" ++ stack
  if isBlank combined then ⟨none, none⟩
  else
    match searchFrom stackP1Re combined.data with
    | some caps =>
      ⟨some ("src/" ++ (capGet caps 1).getD ""),
        match capGet caps 2 with
        | some c2 => if c2 ≠ "" then some (parseIntJs c2) else none
        | none => none⟩
    | none =>
      match reCap1 renderRe combined with
      | some name =>
        (match searchFrom (componentFileRe name) combined.data with
         | some caps =>
           ⟨some ("src/" ++ (capGet caps 1).getD ""),
             match capGet caps 2 with
             | some c2 => if c2 ≠ "" then some (parseIntJs c2) else none
             | none => none⟩
         | none =>
           ⟨some ("src/components/features/" ++ name ++ ".tsx"), none⟩)
      | none =>
        match reCap12 reactFrameRe combined with
        | some (p, l) => ⟨some p, some (parseIntJs l)⟩
        | none =>
          match reCap12 urlFrameRe combined with
          | some (p, l) => ⟨some p, some (parseIntJs l)⟩
          | none =>
            match reCap1 simplePathRe combined with
            | some p => ⟨some p, none⟩
            | none => ⟨none, none⟩

/-- An entry of the in-memory project file set. -/
structure SourceFile where
  path : String
  content : String
deriving DecidableEq, Repr

/-- Message kinds of the chat panel used by the fix loop. -/
inductive MsgType where
  | thinking : MsgType
  | success : MsgType
  | error : MsgType
deriving DecidableEq, Repr

/-- A request sent to the external repair service. -/
structure FixRequest where
  error : String
  filePath : String
  fileContent : String
deriving DecidableEq, Repr

/-- Outcome of the repair-service fetch: a network-level rejection, a
non-ok response, or an ok response whose body may or may not carry the
fixedCode field. -/
inductive FetchOutcome where
  | netError : FetchOutcome
  | notOk : FetchOutcome
  | ok : Option String → FetchOutcome
deriving DecidableEq, Repr

/-- Timers scheduled by a dispatch: the fixed-key expiry, and the two
delayed re-checks after a successful fix. -/
inductive TimerAct where
  | expireKey : String → Nat → TimerAct
  | recheckOther : String → Nat → TimerAct
  | recheckSame : Nat → TimerAct
deriving DecidableEq, Repr

/-- The guard and project state the Fix Dispatcher reads and writes: the
in-flight flag (fixingRef and its isFixing mirror), the fixed-key set, the
attempt and fix counters, the file set, the chat messages and the per-file
cooldown map. -/
structure FixState where
  fixing : Bool
  isFixing : Bool
  fixedKeys : List String
  fixAttempts : Nat
  fixCount : Nat
  files : List SourceFile
  messages : List (MsgType × String)
  lastFixTime : List (String × Nat)
deriving DecidableEq, Repr

/-- Result of one dispatch: the returned boolean, the state after the
finally block, the repair-service calls made, and the timers scheduled. -/
structure FixResult where
  ret : Bool
  state : FixState
  calls : List FixRequest
  timers : List TimerAct
deriving DecidableEq, Repr

/-- The session-wide cap on fix attempts. -/
def MAX_FIX_ATTEMPTS : Nat := 50

/-- The per-file cooldown window in milliseconds. -/
def FIX_COOLDOWN_MS : Nat := 10000

/-- The de-duplication key: file plus the first 100 characters of the
error text. -/
def mkErrorKey (errorFile errorText : String) : String :=
  errorFile ++ ":" ++ sliceFirst errorText 100

/-- Append a chat message. -/
def addMsg (s : FixState) (t : MsgType) (m : String) : FixState :=
  {s with messages := s.messages ++ [(t, m)]}

/-- The missing-import detector of the Dispatcher, case-insensitive. -/
def missingImportRe : RE :=
  .alt
    (rseq [rliti "Cannot find module ", .cls isQuote,
      .grp 1 (rplus (fun c => !isQuote c)), .cls isQuote])
    (rseq [rliti "Failed to resolve import ", .cls isQuote,
      .grp 2 (rplus (fun c => !isQuote c)), .cls isQuote])

/-- The unresolved specifier: first capture if it participated, else the
second. -/
def missingImportCap (errorText : String) : Option String :=
  (searchFrom missingImportRe errorText.data).map
    (fun caps =>
      match capGet caps 1 with
      | some c => if c ≠ "" then c else (capGet caps 2).getD ""
      | none => (capGet caps 2).getD "")

/-- Strip a trailing script extension, the anchored replace of the
component-name computation. -/
def stripExtJs (s : String) : String :=
  if strEndsWith s ".tsx" then s.dropRight 4
  else if strEndsWith s ".ts" then s.dropRight 3
  else if strEndsWith s ".jsx" then s.dropRight 4
  else if strEndsWith s ".js" then s.dropRight 3
  else s

/-- The component name guessed from the missing specifier. -/
def componentNameOf (missingPath : String) : String :=
  let n := stripExtJs (lastChunk "/" missingPath)
  if n = "" then "Component" else n

/-- The synthesized target path of the missing-module flow: alias
resolution, default extension, forced src prefix. -/
def missingFilePath (missingPath : String) : String :=
  let fp1 := if strStartsWith missingPath "@/" then "src/" ++ missingPath.drop 2
             else missingPath
  let fp2 := if !strEndsWith fp1 ".tsx" && !strEndsWith fp1 ".ts" then fp1 ++ ".tsx"
             else fp1
  if !strStartsWith fp2 "src/" then "src/" ++ fp2 else fp2

/-- The generation prompt sent for a missing component. -/
def genPrompt (componentName filePath : String) : String :=
  "Create a new React component for: " ++ componentName ++
    ". The file path is " ++ filePath ++
    ". Make it a functional TypeScript component with proper props interface and modern styling using Tailwind CSS."

/-- Target lookup of the repair flow: exact path, then suffix, then
src-stripped containment, then basename suffix; an entry with empty
content is as good as absent. -/
def findTarget (files : List SourceFile) (errorFile : String) : Option SourceFile :=
  let t0 := files.find? (fun f =>
    f.path = errorFile || strEndsWith f.path errorFile ||
      containsStr f.path (removeFirstStr "src/" errorFile))
  let contentTruthy : Option SourceFile → Bool := fun t =>
    match t with
    | some f => f.content ≠ ""
    | none => false
  let t1 :=
    if contentTruthy t0 then t0
    else
      let fileName := lastChunk "/" errorFile
      if fileName ≠ "" then files.find? (fun f => strEndsWith f.path fileName)
      else t0
  if contentTruthy t1 then t1 else none

/-- The repair-flow file update: replace in place the entry whose path is
the target's. -/
def updateFilesRepair (files : List SourceFile) (targetPath code : String) :
    List SourceFile :=
  files.map (fun f => if f.path = targetPath then {f with content := code} else f)

/-- The missing-module-flow file update: append the new entry. -/
def appendNewFile (files : List SourceFile) (path code : String) :
    List SourceFile :=
  files ++ [⟨path, code⟩]

/-- The finally block plus the post-success re-check scheduling. -/
def finalize (s : FixState) (success : Bool) (calls : List FixRequest)
    (extra : List TimerAct) (errorFile : String) : FixResult :=
  ⟨success, {s with fixing := false, isFixing := false}, calls,
    extra ++ (if success then [.recheckOther errorFile 3000, .recheckSame 8000] else [])⟩

/-- The Fix Dispatcher fixCodeError: guards, then the missing-module or
repair flow against the repair service, the catch and finally blocks, and
the post-success re-check scheduling.  The fetch outcome is the
environment parameter. -/
def fixCodeError (s : FixState) (o : FetchOutcome)
    (errorFile errorText : String) : FixResult :=
  if s.fixing then ⟨false, s, [], []⟩
  else
    let errorKey := mkErrorKey errorFile errorText
    if errorKey ∈ s.fixedKeys then ⟨false, s, [], []⟩
    else
      let s1 := {s with fixing := true, isFixing := true,
                        fixAttempts := s.fixAttempts + 1}
      match missingImportCap errorText with
      | some missingPath =>
        let componentName := componentNameOf missingPath
        let filePath := missingFilePath missingPath
        let s2 := addMsg s1 .thinking
          ("🆕 Creating missing component: " ++ componentName ++ "...")
        let req : FixRequest :=
          ⟨genPrompt componentName filePath, filePath,
            "// NEW FILE - GENERATE COMPONENT"⟩
        match o with
        | .netError =>
          let s3 := addMsg s2 .error "❌ Auto-fix failed: TypeError: Failed to fetch"
          finalize s3 false [req] [] errorFile
        | .notOk => finalize s2 false [req] [] errorFile
        | .ok fixedCode =>
          match fixedCode with
          | some c =>
            if c ≠ "" then
              let s3 := {s2 with
                files := appendNewFile s2.files ("/" ++ filePath) c,
                fixCount := s2.fixCount + 1,
                fixedKeys := errorKey :: s2.fixedKeys}
              let s4 := addMsg s3 .success
                ("✅ Created missing component: " ++ componentName)
              finalize s4 true [req] [] errorFile
            else finalize s2 false [req] [] errorFile
          | none => finalize s2 false [req] [] errorFile
      | none =>
        match findTarget s1.files errorFile with
        | none => ⟨false, {s1 with fixing := false, isFixing := false}, [], []⟩
        | some target =>
          let s2 := addMsg s1 .thinking
            ("🔧 Auto-fixing error in " ++ target.path ++ "...")
          let req : FixRequest := ⟨errorText, target.path, target.content⟩
          match o with
          | .netError =>
            let s3 := addMsg s2 .error "❌ Auto-fix failed: TypeError: Failed to fetch"
            finalize s3 false [req] [] errorFile
          | .notOk =>
            let s3 := addMsg s2 .error "❌ Auto-fix failed: Error: Backend failed"
            finalize s3 false [req] [] errorFile
          | .ok fixedCode =>
            match fixedCode with
            | some c =>
              if c ≠ "" && c ≠ target.content then
                let s3 := {s2 with
                  files := updateFilesRepair s2.files target.path c,
                  fixCount := s2.fixCount + 1,
                  fixedKeys := errorKey :: s2.fixedKeys}
                let s4 := addMsg s3 .success ("✅ Fixed error in " ++ target.path)
                finalize s4 true [req] [.expireKey errorKey 15000] errorFile
              else finalize s2 false [req] [] errorFile
            | none => finalize s2 false [req] [] errorFile

/-- The terminal-output watcher effect: guards on the running flag, the
in-flight flag, the attempt budget, the classifier result, the per-file
cooldown and the fixed-key set; on success it stamps the cooldown map and
schedules the dispatch after a debounce. -/
def terminalWatcher (s : FixState) (isRunning : Bool) (now : Nat)
    (terminalOutput : List String) : Option (Nat × String × String) × FixState :=
  if !isRunning || s.fixing || s.isFixing then (none, s)
  else if s.fixAttempts ≥ MAX_FIX_ATTEMPTS then (none, s)
  else
    match parseError terminalOutput with
    | none => (none, s)
    | some c =>
      if c.file = "" then (none, s)
      else
        let lastT := ((s.lastFixTime.lookup c.file).getD 0)
        if now - lastT < FIX_COOLDOWN_MS then (none, s)
        else
          let errorKey := mkErrorKey c.file c.error
          if errorKey ∈ s.fixedKeys then (none, s)
          else
            (some (1500, c.file, c.error),
              {s with lastFixTime :=
                (c.file, now) :: s.lastFixTime.filter (fun p => p.1 ≠ c.file)})

/-- A runtime-error report delivered by postMessage from the preview frame. -/
structure RuntimeEvent where
  type : String
  message : String
  stack : String
  errorType : String
deriving DecidableEq, Repr

/-- What the runtime-report handler decides to do: dispatch after the
short debounce, or queue a delayed conditional re-attempt while a fix is
in flight. -/
inductive RTDispatch where
  | immediate : Nat → String → String → RTDispatch
  | queued : Nat → String → String → RTDispatch
deriving DecidableEq, Repr

/-- The runtime-error message handler: guards on the message tag, the
running flag, the attempt budget, the resolver result and the fixed-key
set; note it consults no per-file cooldown. -/
def handleRuntimeError (s : FixState) (isRunning : Bool)
    (ev : RuntimeEvent) : Option RTDispatch :=
  if ev.type ≠ "RUNTIME_ERROR" then none
  else if !isRunning then none
  else if s.fixAttempts ≥ MAX_FIX_ATTEMPTS then none
  else
    match (parseStackTrace ev.stack ev.message).filePath with
    | none => none
    | some f =>
      if f = "" then none
      else
        let errorContext := "Runtime Error (" ++ ev.errorType ++ ")\n" ++
          ev.message ++ "\n\nStack trace:\n" ++ ev.stack
        let errorKey := mkErrorKey f errorContext
        if errorKey ∈ s.fixedKeys then none
        else if s.fixing || s.isFixing then some (.queued 3000 f errorContext)
        else some (.immediate 1500 f errorContext)

/-! Concrete states and inputs used by the witnesses and counterexamples. -/

/-- A demo file set. -/
def demoFiles : List SourceFile :=
  [⟨"/src/App.tsx", "old code"⟩, ⟨"/src/Other.tsx", "other"⟩]

/-- An idle demo state. -/
def demoIdle : FixState := ⟨false, false, [], 0, 0, demoFiles, [], []⟩

/-- A demo state with a fix in flight. -/
def demoBusy : FixState := ⟨true, true, [], 0, 0, demoFiles, [], []⟩

/-- A demo state whose fixed set holds the key of a demo candidate. -/
def demoFixedKey : FixState :=
  ⟨false, false, [mkErrorKey "src/A.tsx" "boom"], 0, 0, demoFiles, [], []⟩

/-- A demo state with the attempt budget exhausted. -/
def demoMaxed : FixState := ⟨false, false, [], 50, 0, demoFiles, [], []⟩

/-- A demo state whose cooldown map stamps the demo file at time 9000. -/
def demoCooled : FixState :=
  ⟨false, false, [], 1, 1, demoFiles, [], [("src/App.tsx", 9000)]⟩

/-- A runtime-error report resolving to the cooled-down demo file. -/
def demoEvent : RuntimeEvent :=
  ⟨"RUNTIME_ERROR", "boom", "at App (https://x.io/src/App.tsx:3:1)", "TypeError"⟩

/-- The error context the handler builds from demoEvent. -/
def demoCtx : String :=
  "Runtime Error (TypeError)\nboom\n\nStack trace:\nat App (https://x.io/src/App.tsx:3:1)"

/-- Terminal output whose classification attributes an error to the demo
file. -/
def demoOut : List String :=
  ["[plugin:vite:react-babel] x", "File: /home/project/src/App.tsx:1:1"]

/-- Terminal output for the vite-plugin witness scenario. -/
def fooOut : List String :=
  ["[plugin:vite:react-babel] Transform failed",
   "File: /home/project/src/components/Foo.tsx:12:3"]

end SiteCrafter

namespace SiteCrafter

/-! Substring lemmas used by the classifier proofs. -/

theorem isPrefixOf_append_drop (p q t : List Char) :
    (p ++ q).isPrefixOf t = true → p.isPrefixOf t = true := by
  induction p generalizing t with
  | nil => intro _; simp [List.isPrefixOf]
  | cons c p ih =>
    cases t with
    | nil => intro h; simp [List.isPrefixOf] at h
    | cons d t' =>
      intro h
      simp only [List.cons_append, List.isPrefixOf, Bool.and_eq_true] at h ⊢
      exact ⟨h.1, ih t' h.2⟩

theorem isPrefixOf_append_self (p b : List Char) :
    p.isPrefixOf (p ++ b) = true := by
  induction p with
  | nil => simp [List.isPrefixOf]
  | cons c p ih => simp [List.isPrefixOf, ih]

theorem containsSub_mono (t p q : List Char) :
    containsSub t (p ++ q) = true → containsSub t p = true := by
  induction t with
  | nil =>
    intro h
    simp only [containsSub] at h ⊢
    exact isPrefixOf_append_drop p q [] h
  | cons c t' ih =>
    intro h
    simp only [containsSub, Bool.or_eq_true] at h ⊢
    rcases h with h' | h'
    · exact Or.inl (isPrefixOf_append_drop p q _ h')
    · exact Or.inr (ih h')

theorem containsSub_here (t p : List Char) (h : p.isPrefixOf t = true) :
    containsSub t p = true := by
  cases t with
  | nil => simpa [containsSub] using h
  | cons c t' => simp [containsSub, h]

theorem containsSub_append_mid (a p b : List Char) :
    containsSub (a ++ (p ++ b)) p = true := by
  induction a with
  | nil => exact containsSub_here (p ++ b) p (isPrefixOf_append_self p b)
  | cons c a ih =>
    simp only [List.cons_append, containsSub, Bool.or_eq_true]
    exact Or.inr ih

/-- Claim C1: at most one fix is in flight — when the in-flight flag is
set, fixCodeError returns false immediately with no service call, no
scheduled timer and no state change; and on every completion path of a
dispatch (the flag was clear on entry) the flag is clear again in the
resulting state, success or failure. -/
theorem fix_inflight_guard (s : FixState) (o : FetchOutcome) (f e : String) :
    (s.fixing = true → fixCodeError s o f e = ⟨false, s, [], []⟩) ∧
    (s.fixing = false → (fixCodeError s o f e).state.fixing = false) := by
  constructor
  · intro h
    unfold fixCodeError
    rw [if_pos h]
  · intro h
    unfold fixCodeError
    rw [if_neg (by simp [h])]
    repeat' split
    all_goals try simp_all [finalize, addMsg]
    all_goals try (split_ifs <;> try simp_all [finalize, addMsg])
    all_goals try (repeat' split)
    all_goals simp_all [finalize, addMsg]

theorem fix_inflight_guard_witness :
    (fixCodeError demoBusy (.ok (some "n")) "src/App.tsx" "boom" =
      ⟨false, demoBusy, [], []⟩) ∧
    ((fixCodeError demoIdle (.ok (some "n")) "src/App.tsx" "boom").state.fixing = false) :=
  ⟨(fix_inflight_guard demoBusy (.ok (some "n")) "src/App.tsx" "boom").1 rfl,
   (fix_inflight_guard demoIdle (.ok (some "n")) "src/App.tsx" "boom").2 rfl⟩

/-- Claim C2: ErrorKey de-duplication — while the candidate's key is in
the fixed set, a dispatch of the same key is suppressed: the guard returns
false early, no repair-service call is made and the state is unchanged;
and a successful dispatch records the key in the fixed set, so the key
cannot trigger another fix until the expiry timer removes it. -/
theorem fix_errorKey_dedup (s : FixState) (o : FetchOutcome) (f e : String) :
    (mkErrorKey f e ∈ s.fixedKeys → fixCodeError s o f e = ⟨false, s, [], []⟩) ∧
    ((fixCodeError s o f e).ret = true →
      mkErrorKey f e ∈ (fixCodeError s o f e).state.fixedKeys) := by
  constructor
  · intro h
    unfold fixCodeError
    split
    · rfl
    · rw [if_pos h]
  · unfold fixCodeError
    repeat' split
    all_goals try simp_all [finalize, addMsg]
    all_goals try (split_ifs <;> try simp_all [finalize, addMsg])
    all_goals try (repeat' split)
    all_goals simp_all [finalize, addMsg]

/-- Claim C3 counterexample: with the demo file inside its cooldown
window (stamped at 9000, its window open until 19000), the watcher
suppresses a build-output report at 9500, yet a runtime report on the very
same file with a different error text is dispatched, and the dispatch
performs a repair-service call — so the second report does result in a
service call, against the claim. -/
theorem fix_cooldown_counterexample :
    terminalWatcher demoCooled true 9500 demoOut = (none, demoCooled) ∧
    handleRuntimeError demoCooled true demoEvent =
      some (.immediate 1500 "src/App.tsx" demoCtx) ∧
    (fixCodeError demoCooled (.ok (some "new")) "src/App.tsx" demoCtx).calls =
      [⟨demoCtx, "/src/App.tsx", "old code"⟩] := by
  refine ⟨by decide, by decide, by decide⟩

/-- Claim C3 (amended): the per-file cooldown is enforced only on the
build-output watcher path — whenever the classifier attributes an error to
a file whose last stamp is within the cooldown window, the watcher
schedules nothing and changes nothing, whichever the other guards say; the
runtime-report handler consults no cooldown, so a second report arriving
through it can still dispatch. -/
theorem fix_cooldown_watcher_only (s : FixState) (isRunning : Bool) (now : Nat)
    (out : List String) (c : ErrorCandidate)
    (hp : parseError out = some c)
    (hc : now - ((s.lastFixTime.lookup c.file).getD 0) < FIX_COOLDOWN_MS) :
    terminalWatcher s isRunning now out = (none, s) := by
  unfold terminalWatcher
  split
  · rfl
  · split
    · rfl
    · simp only [hp]
      split
      · rfl
      · simp [hc]

theorem fix_cooldown_watcher_only_witness :
    terminalWatcher demoCooled true 9999 demoOut = (none, demoCooled) :=
  fix_cooldown_watcher_only demoCooled true 9999 demoOut
    ⟨"src/App.tsx", viteMsg "src/App.tsx" (normText demoOut)⟩
    (by decide) (by decide)

/-- Claim C4 counterexample: with the attempt counter at the configured
maximum, the Dispatcher itself still performs a repair-service call and
returns true — fixCodeError has no budget guard, so the delayed re-checks
(which invoke it directly) are not stopped by the cap. -/
theorem fix_budget_counterexample :
    demoMaxed.fixAttempts = MAX_FIX_ATTEMPTS ∧
    (fixCodeError demoMaxed (.ok (some "new code")) "src/App.tsx" "Some type error").ret
      = true ∧
    (fixCodeError demoMaxed (.ok (some "new code")) "src/App.tsx" "Some type error").calls
      ≠ [] := by
  refine ⟨by decide, by decide, by decide⟩

/-- Claim C4 (amended): the attempt budget is enforced at the two trigger
entry points — once the counter has reached the maximum, the build-output
watcher and the runtime-report handler both refuse to dispatch,
unconditionally; the Dispatcher itself does not check the budget, so the
delayed re-checks scheduled after a successful fix can still produce
service calls past the cap. -/
theorem fix_budget_triggers (s : FixState) (isRunning : Bool) (now : Nat)
    (out : List String) (ev : RuntimeEvent)
    (h : s.fixAttempts ≥ MAX_FIX_ATTEMPTS) :
    terminalWatcher s isRunning now out = (none, s) ∧
    handleRuntimeError s isRunning ev = none := by
  constructor
  · unfold terminalWatcher
    simp [h]
  · unfold handleRuntimeError
    simp [h]

theorem fix_budget_triggers_witness :
    terminalWatcher demoMaxed true 0 demoOut = (none, demoMaxed) ∧
    handleRuntimeError demoMaxed true demoEvent = none :=
  fix_budget_triggers demoMaxed true 0 demoOut demoEvent (by decide)

theorem fix_errorKey_dedup_witness :
    (fixCodeError demoFixedKey (.ok (some "n")) "src/A.tsx" "boom" =
      ⟨false, demoFixedKey, [], []⟩) ∧
    (mkErrorKey "src/App.tsx" "Some error" ∈
      (fixCodeError demoIdle (.ok (some "new")) "src/App.tsx" "Some error").state.fixedKeys) :=
  ⟨(fix_errorKey_dedup demoFixedKey (.ok (some "n")) "src/A.tsx" "boom").1 (by decide),
   (fix_errorKey_dedup demoIdle (.ok (some "new")) "src/App.tsx" "Some error").2 (by decide)⟩

/-- Claim C9 counterexample: an ok response whose body lacks fixedCode.
The dispatch returns false, clears the flag and records no key — but no
user-visible error message is produced (the messages carry no error
entry), while the claim says the failure is surfaced as one. -/
theorem fix_missing_field_silent :
    (fixCodeError demoIdle (.ok none) "src/App.tsx" "Some error").ret = false ∧
    (fixCodeError demoIdle (.ok none) "src/App.tsx" "Some error").state.fixing = false ∧
    mkErrorKey "src/App.tsx" "Some error" ∉
      (fixCodeError demoIdle (.ok none) "src/App.tsx" "Some error").state.fixedKeys ∧
    ((fixCodeError demoIdle (.ok none) "src/App.tsx" "Some error").state.messages.all
      (fun m => m.1 ≠ MsgType.error)) = true ∧
    (fixCodeError demoIdle (.ok none) "src/App.tsx" "Some error").calls ≠ [] := by
  refine ⟨by decide, by decide, by decide, by decide, by decide⟩

/-- Claim C9 (amended): on a failed dispatch — network error, non-ok
response, or ok response lacking the fixedCode field — the result is
false, the in-flight flag is cleared and the ErrorKey is not added to the
fixed set, so the same error stays eligible for retry; a user-visible
error message is guaranteed only when an exception is thrown, in
particular on a network error reaching a service call. -/
theorem fix_failure_state_rollback (s : FixState) (f e : String) (o : FetchOutcome)
    (h1 : s.fixing = false) (h2 : mkErrorKey f e ∉ s.fixedKeys)
    (h3 : o = .netError ∨ o = .notOk ∨ o = .ok none) :
    (fixCodeError s o f e).ret = false ∧
    (fixCodeError s o f e).state.fixing = false ∧
    mkErrorKey f e ∉ (fixCodeError s o f e).state.fixedKeys ∧
    (o = .netError → (missingImportCap e = none → findTarget s.files f ≠ none) →
      (MsgType.error, "❌ Auto-fix failed: TypeError: Failed to fetch")
        ∈ (fixCodeError s o f e).state.messages) := by
  rcases h3 with h3 | h3 | h3 <;> subst h3 <;>
    (unfold fixCodeError
     rw [if_neg (by simp [h1])]
     rw [if_neg h2]
     repeat' split
     all_goals try simp_all [finalize, addMsg]
     all_goals try (repeat' split)
     all_goals simp_all [finalize, addMsg])

theorem fix_failure_state_rollback_witness :
    (fixCodeError demoIdle .netError "src/App.tsx" "boom").ret = false ∧
    (fixCodeError demoIdle .netError "src/App.tsx" "boom").state.fixing = false ∧
    mkErrorKey "src/App.tsx" "boom" ∉
      (fixCodeError demoIdle .netError "src/App.tsx" "boom").state.fixedKeys ∧
    ((FetchOutcome.netError = .netError) →
      (missingImportCap "boom" = none → findTarget demoIdle.files "src/App.tsx" ≠ none) →
      (MsgType.error, "❌ Auto-fix failed: TypeError: Failed to fetch")
        ∈ (fixCodeError demoIdle .netError "src/App.tsx" "boom").state.messages) :=
  fix_failure_state_rollback demoIdle "src/App.tsx" "boom" .netError
    (by decide) (by decide) (Or.inl rfl)

theorem updateFilesRepair_zip (files : List SourceFile) (t c : String) :
    ∀ pr ∈ files.zip (updateFilesRepair files t c),
      pr.1.path = pr.2.path ∧ (pr.1.path ≠ t → pr.2 = pr.1) ∧
      (pr.1.path = t → pr.2 = ⟨pr.1.path, c⟩) := by
  induction files with
  | nil => intro pr hpr; simp [updateFilesRepair] at hpr
  | cons f fs ih =>
    intro pr hpr
    simp only [updateFilesRepair, List.map_cons, List.zip_cons_cons,
      List.mem_cons] at hpr
    rcases hpr with h | h
    · subst h
      by_cases hf : f.path = t
      · cases f
        simp_all
      · cases f
        simp_all
    · simpa [updateFilesRepair] using ih pr (by simpa [updateFilesRepair] using h)

/-- Claim C10: frame property of a fix — the repair-flow update replaces
exactly the entries whose path equals the target's path, keeps every other
entry with its path and content, and neither adds nor removes entries; the
missing-module-flow update appends exactly one new entry and leaves every
pre-existing entry unchanged. -/
theorem fix_frame_property (files : List SourceFile) (t c p cc : String) :
    (updateFilesRepair files t c).length = files.length ∧
    (∀ pr ∈ files.zip (updateFilesRepair files t c),
        pr.1.path = pr.2.path ∧ (pr.1.path ≠ t → pr.2 = pr.1) ∧
        (pr.1.path = t → pr.2 = ⟨pr.1.path, c⟩)) ∧
    appendNewFile files p cc = files ++ [⟨p, cc⟩] ∧
    (appendNewFile files p cc).take files.length = files ∧
    (appendNewFile files p cc).length = files.length + 1 := by
  refine ⟨by simp [updateFilesRepair], updateFilesRepair_zip files t c, rfl, ?_,
    by simp [appendNewFile]⟩
  simp [appendNewFile, List.take_left]

theorem fix_frame_property_witness :
    (updateFilesRepair demoFiles "/src/App.tsx" "new").length = demoFiles.length ∧
    appendNewFile demoFiles "/src/New.tsx" "n" = demoFiles ++ [⟨"/src/New.tsx", "n"⟩] :=
  ⟨(fix_frame_property demoFiles "/src/App.tsx" "new" "/src/New.tsx" "n").1,
   (fix_frame_property demoFiles "/src/App.tsx" "new" "/src/New.tsx" "n").2.2.1⟩

/-- Claim C5: vite-plugin classification — whenever the normalized output
text carries the plugin marker and its File annotation matches (capturing
a src-rooted script path), the classifier returns a candidate whose file
is exactly the captured src-relative path and whose error body mentions
that path. -/
theorem parseError_vite_file_annotation (out : List String) (p : String)
    (h1 : containsStr (normText out) "[plugin:vite:" = true)
    (h2 : reCap1 fileLineRe (normText out) = some p) :
    parseError out = some ⟨p, viteMsg p (normText out)⟩ ∧
    containsStr (viteMsg p (normText out)) p = true := by
  have hsplit : ("[plugin:vite:" : String).data =
      ("[plugin:vite" : String).data ++ (":" : String).data := by decide
  have hmono : containsStr (normText out) "[plugin:vite" = true := by
    unfold containsStr at h1 ⊢
    rw [hsplit] at h1
    exact containsSub_mono _ _ _ h1
  constructor
  · unfold parseError parseErrorText
    simp [hmono, h1, h2]
  · have hdata : (viteMsg p (normText out)).data =
        ("Vite Error in " : String).data ++
          (p.data ++ ("\n\nFull error:\n" ++ sliceLast (normText out) 1000).data) := by
      simp [viteMsg, List.append_assoc]
    unfold containsStr
    rw [hdata]
    exact containsSub_append_mid _ _ _

theorem parseError_vite_file_annotation_witness :
    parseError fooOut =
      some ⟨"src/components/Foo.tsx", viteMsg "src/components/Foo.tsx" (normText fooOut)⟩ ∧
    containsStr (viteMsg "src/components/Foo.tsx" (normText fooOut))
      "src/components/Foo.tsx" = true :=
  parseError_vite_file_annotation fooOut "src/components/Foo.tsx"
    (by decide) (by decide)

/-- Claim C6: evaluation of the Stack Trace Resolver at the bug-revealing
input.  A sandbox URL with an embedded src path and a real numeric line,
but not wrapped in an at-frame, falls through to the bare-path fallback
with a null line number, because pattern 1 spells its line-number group
with a doubled backslash inside a regex literal and so can never match a
digit; the named-frame scenario still resolves path and line through
pattern 3. -/
theorem parseStackTrace_pattern1_bug :
    parseStackTrace "https://x.io/src/App.tsx:5:2" "" =
      ⟨some "src/App.tsx", none⟩ ∧
    parseStackTrace "at Bar (https://x.io/src/pages/Bar.tsx:10:5)" "" =
      ⟨some "src/pages/Bar.tsx", some (.num 10)⟩ := by
  refine ⟨by decide, by decide⟩

/-- Claim C7 counterexample: the normalization is not idempotent — on the
string of a bracket, a bracket, 1, m, 1, m one pass removes the inner
bracket-digit-m and leaves a fresh occurrence that a second pass removes. -/
theorem normalizeOut_not_idempotent :
    normalizeOut (normalizeOut ("[[1m1m".data)) ≠ normalizeOut ("[[1m1m".data) := by
  decide

theorem stripCSIF_id (fuel : Nat) (s : List Char) (h : '[' ∉ s) :
    stripCSIF fuel s = s := by
  induction fuel generalizing s with
  | zero => rfl
  | succ fuel ih =>
    cases s with
    | nil => rfl
    | cons c rest =>
      have h1 : '[' ∉ rest := fun hm => h (List.mem_cons_of_mem _ hm)
      simp only [stripCSIF]
      by_cases hc : c = escChar
      · rw [if_pos hc]
        split
        · exact absurd (List.mem_cons_self _ _) h1
        · rw [ih _ h1]
      · rw [if_neg hc, ih _ h1]

theorem stripBracketNumF_id (fuel : Nat) (s : List Char) (h : '[' ∉ s) :
    stripBracketNumF fuel s = s := by
  induction fuel generalizing s with
  | zero => rfl
  | succ fuel ih =>
    cases s with
    | nil => rfl
    | cons c rest =>
      have h1 : '[' ∉ rest := fun hm => h (List.mem_cons_of_mem _ hm)
      have hc : c ≠ '[' := fun hcc => h (by rw [hcc]; exact List.mem_cons_self _ _)
      simp only [stripBracketNumF]
      rw [if_neg hc, ih _ h1]

/-- Claim C7 (amended): the normalizer is a pure function of its input,
and on any string containing no bracket character it is the identity —
hence idempotent there; full idempotence fails, since removing a match can
create a new one. -/
theorem normalizeOut_id_no_bracket (s : List Char) (h : '[' ∉ s) :
    normalizeOut s = s ∧ normalizeOut (normalizeOut s) = normalizeOut s := by
  have h1 : normalizeOut s = s := by
    unfold normalizeOut stripCSI stripBracketNum
    rw [stripCSIF_id _ s h, stripBracketNumF_id _ s h]
  exact ⟨h1, by rw [h1]; exact h1⟩

theorem normalizeOut_id_no_bracket_witness :
    normalizeOut ("hello world".data) = "hello world".data ∧
    normalizeOut (normalizeOut ("hello world".data)) = normalizeOut ("hello world".data) :=
  normalizeOut_id_no_bracket ("hello world".data) (by decide)

/-- Claim C8: for input whose normalized text holds no src marker and
matches none of the recognized patterns — no vite-plugin marker, no
failed-import match, no TypeScript diagnostic match, no syntax-error
marker, no cannot-find-module match — the classifier returns null. -/
theorem parseError_null_when_unrecognized (out : List String)
    (_hsrc : containsStr (normText out) "src/" = false)
    (h2 : containsStr (normText out) "[plugin:vite:" = false)
    (h3 : searchFrom importRe (normText out).data = none)
    (h4 : searchFrom tsRe (normText out).data = none)
    (h5 : containsStr (normText out) "SyntaxError" = false)
    (h6 : containsStr (normText out) "Unexpected token" = false)
    (h7 : searchFrom moduleRe (normText out).data = none) :
    parseError out = none := by
  unfold parseError parseErrorText
  split
  · rfl
  · split
    · rfl
    · rw [if_neg (by simp [h2])]
      unfold parseErrorRest parseErrorRest2
      simp [reCap12, reCap1, h3, h4, h5, h6, h7]

theorem parseError_null_when_unrecognized_witness :
    parseError ["hello world"] = none :=
  parseError_null_when_unrecognized ["hello world"]
    (by decide) (by decide) (by decide) (by decide) (by decide) (by decide) (by decide)

end SiteCrafter
